import Mathlib

/-!
Verification development for the aihive workflow engine.

Shallow embedding of the core subsystems that the verified properties
concern, translated from the Python sources:

* `src/task_management/domain/entities/task.py` — the `Task` aggregate,
  its status machine and domain events;
* `src/infrastructure/message_queue/error_handler.py` — retry /
  dead-letter controller;
* `src/orchestration/application/task_scanning_service.py` — scanning
  orchestrator;
* `src/product_definition/agents/task_polling_service.py` and
  `src/product_definition/application/task_polling_service.py` — polling
  worker loops and the task prioritizer;
* `src/infrastructure/message_queue/event_monitor.py` — event logger.

Python `datetime` instants are modelled as natural numbers (an abstract
time axis at ISO-8601 precision); each mutating operation receives the
current instant `now` explicitly in place of `datetime.utcnow()`.
Exceptions (`raise ValueError`) are modelled with `Except String`.
-/

namespace AIHive

/-- `TaskStatus` enum from
`src/task_management/domain/value_objects/task_status.py`. -/
inductive TaskStatus where
  | created
  | assigned
  | in_progress
  | blocked
  | review
  | completed
  | canceled
deriving DecidableEq, Repr

/-- The `.value` string of each `TaskStatus` member. -/
def TaskStatus.value : TaskStatus → String
  | .created => "created"
  | .assigned => "assigned"
  | .in_progress => "in_progress"
  | .blocked => "blocked"
  | .review => "review"
  | .completed => "completed"
  | .canceled => "canceled"

/-- `TaskStatus(s)` enum lookup by value string (raises on no match). -/
def TaskStatus.fromValue : String → Option TaskStatus
  | "created" => some .created
  | "assigned" => some .assigned
  | "in_progress" => some .in_progress
  | "blocked" => some .blocked
  | "review" => some .review
  | "completed" => some .completed
  | "canceled" => some .canceled
  | _ => none

/-- `TaskPriority` enum from
`src/task_management/domain/value_objects/task_priority.py`. -/
inductive TaskPriority where
  | low
  | medium
  | high
  | critical
deriving DecidableEq, Repr

/-- The `.value` string of each `TaskPriority` member. -/
def TaskPriority.value : TaskPriority → String
  | .low => "low"
  | .medium => "medium"
  | .high => "high"
  | .critical => "critical"

/-- `TaskPriority(s)` enum lookup by value string. -/
def TaskPriority.fromValue : String → Option TaskPriority
  | "low" => some .low
  | "medium" => some .medium
  | "high" => some .high
  | "critical" => some .critical
  | _ => none

/-- Domain events from
`src/task_management/domain/events/task_events.py`, restricted to the
fields the aggregate fills in (`task.py`). -/
inductive TaskEvent where
  | taskCreated (task_id title description : String)
      (priority : String) (created_by : String)
      (requirements_ids : List String) (parent_task_id : Option String)
      (tags : List String) (due_date : Option Nat)
  | taskAssigned (task_id assignee : String)
      (previous_assignee : Option String) (assigned_by : Option String)
  | taskStatusChanged (task_id new_status previous_status : String)
      (changed_by : Option String) (reason : Option String)
  | taskCompleted (task_id completed_by : String)
      (artifact_ids : List String) (completion_notes : Option String)
  | taskCanceled (task_id canceled_by : String) (reason : Option String)
deriving DecidableEq, Repr

/-- The `Task` entity (`src/task_management/domain/entities/task.py`).
Instants are naturals; `pending_events` is the `_pending_events` list. -/
structure Task where
  task_id : String
  title : String
  description : String
  priority : TaskPriority
  status : TaskStatus
  created_by : String
  assignee : Option String
  due_date : Option Nat
  requirements_ids : List String
  parent_task_id : Option String
  tags : List String
  artifact_ids : List String
  created_at : Nat
  updated_at : Nat
  pending_events : List TaskEvent
deriving DecidableEq, Repr

namespace Task

/-- `Task._change_status`: set the status, refresh `updated_at` and append
a `TaskStatusChangedEvent` (task.py lines 221–236). -/
def changeStatusUnchecked (t : Task) (new_status : TaskStatus)
    (changed_by : Option String) (reason : Option String) (now : Nat) : Task :=
  { t with
    status := new_status
    updated_at := now
    pending_events := t.pending_events ++
      [.taskStatusChanged t.task_id new_status.value t.status.value
        changed_by reason] }

/-- The `valid_transitions` dictionary of
`Task._is_valid_status_transition` (task.py lines 241–249), as a function
from the current status to the list of allowed next statuses. -/
def validTransitionsTable : TaskStatus → List TaskStatus
  | .created => [.assigned, .canceled]
  | .assigned => [.in_progress, .blocked, .canceled]
  | .in_progress => [.blocked, .review, .canceled]
  | .blocked => [.in_progress, .canceled]
  | .review => [.in_progress, .completed, .canceled]
  | .completed => []
  | .canceled => []

/-- `Task._is_valid_status_transition` (task.py lines 238–251):
`new_status in valid_transitions.get(self.status, [])`. -/
def isValidStatusTransition (t : Task) (new_status : TaskStatus) : Bool :=
  (validTransitionsTable t.status).contains new_status

/-- `Task.change_status` (task.py lines 84–90): validate the edge, raise
`ValueError` when invalid, else delegate to `_change_status`. -/
def change_status (t : Task) (new_status : TaskStatus)
    (changed_by : Option String) (reason : Option String) (now : Nat) :
    Except String Task :=
  if ¬ t.isValidStatusTransition new_status then
    .error ("Invalid status transition from " ++ t.status.value ++ " to "
      ++ new_status.value)
  else
    .ok (t.changeStatusUnchecked new_status changed_by reason now)

/-- `Task.assign_to` (task.py lines 63–82): record the previous assignee,
set the new one, transition to `assigned` when the status is `created`
(via `_change_status`, which appends the TaskStatusChanged event), then
append the TaskAssigned event. -/
def assign_to (t : Task) (assignee : String) (assigned_by : Option String)
    (now : Nat) : Task :=
  let previous_assignee := t.assignee
  let t := { t with assignee := some assignee }
  let t :=
    if t.status = TaskStatus.created then
      t.changeStatusUnchecked .assigned none none now
    else t
  let t := { t with updated_at := now }
  { t with pending_events := t.pending_events ++
      [.taskAssigned t.task_id assignee previous_assignee assigned_by] }

/-- `Task.complete` (task.py lines 92–111): raise when the task is
canceled; otherwise set the status directly to `completed`, refresh
`updated_at`, extend the artifact list when one is supplied, and append a
`TaskCompletedEvent` carrying the extended artifact list. -/
def complete (t : Task) (completed_by : String)
    (artifact_ids : List String) (completion_notes : Option String)
    (now : Nat) : Except String Task :=
  if t.status = TaskStatus.canceled then
    .error "Cannot complete a canceled task"
  else
    let arts := if artifact_ids ≠ [] then t.artifact_ids ++ artifact_ids
                else t.artifact_ids
    .ok { t with
      status := .completed
      updated_at := now
      artifact_ids := arts
      pending_events := t.pending_events ++
        [.taskCompleted t.task_id completed_by arts completion_notes] }

/-- `Task.cancel` (task.py lines 113–128): raise when the task is
completed; otherwise set the status directly to `canceled`, refresh
`updated_at` and append a `TaskCanceledEvent`. -/
def cancel (t : Task) (canceled_by : String) (reason : Option String)
    (now : Nat) : Except String Task :=
  if t.status = TaskStatus.completed then
    .error "Cannot cancel a completed task"
  else
    .ok { t with
      status := .canceled
      updated_at := now
      pending_events := t.pending_events ++
        [.taskCanceled t.task_id canceled_by reason] }

end Task

/-- The status graph of spec §4.1, written out edge by edge exactly as the
spec's table enumerates it (spec-side definition, for the refinement
statement of the transition-validity claim). -/
def specStatusGraph : List (TaskStatus × TaskStatus) :=
  [(.created, .assigned), (.created, .canceled),
   (.assigned, .in_progress), (.assigned, .blocked), (.assigned, .canceled),
   (.in_progress, .blocked), (.in_progress, .review), (.in_progress, .canceled),
   (.blocked, .in_progress), (.blocked, .canceled),
   (.review, .in_progress), (.review, .completed), (.review, .canceled)]

/-- Whether an aggregate operation succeeded (Python: no exception). -/
def isOkE (e : Except String Task) : Bool :=
  match e with
  | .ok _ => true
  | .error _ => false

/-- The spec's §4.1 edge list and the code's `valid_transitions` table
describe the same relation. -/
theorem mem_specStatusGraph_iff (a b : TaskStatus) :
    (a, b) ∈ specStatusGraph ↔ (Task.validTransitionsTable a).contains b = true := by
  cases a <;> cases b <;> decide

/-- A concrete task used to instantiate hypothesis-bearing theorems. -/
def sampleTask : Task :=
  { task_id := "t-1", title := "T1", description := "D1"
    priority := .medium, status := .created, created_by := "u1"
    assignee := none, due_date := none, requirements_ids := []
    parent_task_id := none, tags := [], artifact_ids := []
    created_at := 0, updated_at := 0, pending_events := [] }

/-- C1: `change_status(t, s)` succeeds — setting `t.status` to `s`,
refreshing `updated_at` and appending exactly one TaskStatusChanged
event — exactly when `(t.status, s)` is an edge of the §4.1 status
graph; for every other pair it raises the invalid-transition error and
(the embedding being pure, the input task untouched) appends no event
and leaves the task unchanged. -/
theorem change_status_matches_spec_graph (t : Task) (s : TaskStatus)
    (changed_by reason : Option String) (now : Nat) :
    ((t.status, s) ∈ specStatusGraph →
      t.change_status s changed_by reason now =
        .ok { t with
          status := s
          updated_at := now
          pending_events := t.pending_events ++
            [.taskStatusChanged t.task_id s.value t.status.value
              changed_by reason] }) ∧
    ((t.status, s) ∉ specStatusGraph →
      t.change_status s changed_by reason now =
        .error ("Invalid status transition from " ++ t.status.value
          ++ " to " ++ s.value)) := by
  constructor
  · intro h
    have hv : t.isValidStatusTransition s = true :=
      (mem_specStatusGraph_iff t.status s).mp h
    simp [Task.change_status, hv, Task.changeStatusUnchecked]
  · intro h
    have hv : t.isValidStatusTransition s = false := by
      rcases hb : t.isValidStatusTransition s with _ | _
      · rfl
      · exact absurd ((mem_specStatusGraph_iff t.status s).mpr hb) h
    simp [Task.change_status, hv]

/-- Witness for C1: a legal edge (`created → assigned`) succeeds and an
illegal pair (`created → review`) raises, at concrete inputs. -/
theorem change_status_matches_spec_graph_witness :
    sampleTask.change_status .assigned (some "admin") none 5 =
      .ok { sampleTask with
        status := .assigned
        updated_at := 5
        pending_events :=
          [.taskStatusChanged "t-1" "assigned" "created" (some "admin") none] } ∧
    sampleTask.change_status .review none none 5 =
      .error "Invalid status transition from created to review" :=
  ⟨(change_status_matches_spec_graph sampleTask .assigned (some "admin") none 5).1
      (by decide),
   (change_status_matches_spec_graph sampleTask .review none none 5).2
      (by decide)⟩

/-- A concrete task sitting in `review` status with no pending events. -/
def reviewTask : Task :=
  { sampleTask with status := .review }

/-- C2 counterexample: the claim "`complete` succeeds only when the
status is `review`, and on success appends a TaskStatusChanged event
followed by a TaskCompleted event" is false on the code. At concrete
inputs: a task still in `created` status completes successfully, and a
task in `review` status receives exactly one pending event — the
TaskCompleted event — with no TaskStatusChanged event in front of it. -/
theorem complete_claim_counterexample :
    sampleTask.status = .created ∧
    sampleTask.complete "u2" [] none 7 =
      .ok { sampleTask with
        status := .completed
        updated_at := 7
        pending_events := [.taskCompleted "t-1" "u2" [] none] } ∧
    reviewTask.complete "rev" [] none 7 =
      .ok { reviewTask with
        status := .completed
        updated_at := 7
        pending_events := [.taskCompleted "t-1" "rev" [] none] } ∧
    (∀ e, [TaskEvent.taskCompleted "t-1" "rev" [] none] ≠
      [TaskEvent.taskStatusChanged "t-1" "completed" "review" none none, e]) := by
  refine ⟨rfl, rfl, rfl, ?_⟩
  intro e h
  simp at h

/-- C2 (amended): `complete(completed_by, …)` succeeds exactly when the
task's status is not `canceled` (any of `created`, `assigned`,
`in_progress`, `blocked`, `review`, `completed` — not only `review`); on
success it sets the status directly to `completed` and appends exactly
one TaskCompleted event (no TaskStatusChanged event); invoked on a task
whose status is `canceled` it fails. -/
theorem complete_succeeds_iff_not_canceled (t : Task) (completed_by : String)
    (arts : List String) (notes : Option String) (now : Nat) :
    (t.status ≠ .canceled →
      t.complete completed_by arts notes now =
        .ok { t with
          status := .completed
          updated_at := now
          artifact_ids :=
            if arts ≠ [] then t.artifact_ids ++ arts else t.artifact_ids
          pending_events := t.pending_events ++
            [.taskCompleted t.task_id completed_by
              (if arts ≠ [] then t.artifact_ids ++ arts else t.artifact_ids)
              notes] }) ∧
    (t.status = .canceled →
      t.complete completed_by arts notes now =
        .error "Cannot complete a canceled task") := by
  constructor
  · intro h
    simp [Task.complete, h]
  · intro h
    simp [Task.complete, h]

/-- Witness for C2's amended theorem: both branches discharged at
concrete inputs (an `assigned`-status task completes; a `canceled` one
fails). -/
theorem complete_succeeds_iff_not_canceled_witness :
    ({ sampleTask with status := .assigned } : Task).complete "u2" ["a1"] none 9 =
      .ok { sampleTask with
        status := .completed
        updated_at := 9
        artifact_ids := ["a1"]
        pending_events := [.taskCompleted "t-1" "u2" ["a1"] none] } ∧
    ({ sampleTask with status := .canceled } : Task).complete "u2" [] none 9 =
      .error "Cannot complete a canceled task" :=
  ⟨(complete_succeeds_iff_not_canceled { sampleTask with status := .assigned }
      "u2" ["a1"] none 9).1 (by decide),
   (complete_succeeds_iff_not_canceled { sampleTask with status := .canceled }
      "u2" [] none 9).2 rfl⟩

/-- C3 counterexample: the claim that `assign_to` on a `created` task
appends a TaskAssigned event followed by a TaskStatusChanged event is
false: at a concrete input the code appends the TaskStatusChanged event
first and the TaskAssigned event second, so the first appended event is
not a TaskAssigned event. -/
theorem assign_to_claim_counterexample :
    sampleTask.assign_to "test_user" (some "admin") 3 =
      { sampleTask with
        assignee := some "test_user"
        status := .assigned
        updated_at := 3
        pending_events :=
          [.taskStatusChanged "t-1" "assigned" "created" none none,
           .taskAssigned "t-1" "test_user" none (some "admin")] } ∧
    (sampleTask.assign_to "test_user" (some "admin") 3).pending_events.head? ≠
      some (.taskAssigned "t-1" "test_user" none (some "admin")) := by
  refine ⟨rfl, ?_⟩
  intro h
  simp [Task.assign_to, Task.changeStatusUnchecked, sampleTask] at h

/-- C3 (amended): for every task in `created` status, `assign_to` sets
the assignee, transitions the status to `assigned`, and appends a
TaskStatusChanged event followed by a TaskAssigned event — in that
order (the reverse of the order the claim stated). -/
theorem assign_to_from_created (t : Task) (a : String)
    (assigned_by : Option String) (now : Nat) (h : t.status = .created) :
    t.assign_to a assigned_by now =
      { t with
        assignee := some a
        status := .assigned
        updated_at := now
        pending_events := t.pending_events ++
          [.taskStatusChanged t.task_id "assigned" "created" none none,
           .taskAssigned t.task_id a t.assignee assigned_by] } := by
  simp [Task.assign_to, h, Task.changeStatusUnchecked, TaskStatus.value]

/-- Witness for C3's amended theorem at a concrete `created`-status
task. -/
theorem assign_to_from_created_witness :
    sampleTask.assign_to "agent-1" (some "admin") 4 =
      { sampleTask with
        assignee := some "agent-1"
        status := .assigned
        updated_at := 4
        pending_events :=
          [.taskStatusChanged "t-1" "assigned" "created" none none,
           .taskAssigned "t-1" "agent-1" none (some "admin")] } :=
  assign_to_from_created sampleTask "agent-1" (some "admin") 4 rfl

/-- C10: `cancel` raises exactly when the status is `completed`, and
`complete` raises exactly when the status is `canceled`; `complete` on
an already-completed task and `cancel` on an already-canceled task are
accepted, leave the status value unchanged (the terminal states are
absorbing), and append a further TaskCompleted (resp. TaskCanceled)
event to `pending_events`. -/
theorem terminal_states_absorbing (t : Task) (completed_by canceled_by : String)
    (arts : List String) (notes reason : Option String) (now : Nat) :
    (isOkE (t.cancel canceled_by reason now) = false ↔ t.status = .completed) ∧
    (isOkE (t.complete completed_by arts notes now) = false ↔
      t.status = .canceled) ∧
    (t.status = .completed →
      t.complete completed_by arts notes now =
        .ok { t with
          status := .completed
          updated_at := now
          artifact_ids :=
            if arts ≠ [] then t.artifact_ids ++ arts else t.artifact_ids
          pending_events := t.pending_events ++
            [.taskCompleted t.task_id completed_by
              (if arts ≠ [] then t.artifact_ids ++ arts else t.artifact_ids)
              notes] }) ∧
    (t.status = .canceled →
      t.cancel canceled_by reason now =
        .ok { t with
          status := .canceled
          updated_at := now
          pending_events := t.pending_events ++
            [.taskCanceled t.task_id canceled_by reason] }) := by
  refine ⟨?_, ?_, ?_, ?_⟩
  · by_cases h : t.status = .completed <;> simp [Task.cancel, h, isOkE]
  · by_cases h : t.status = .canceled <;> simp [Task.complete, h, isOkE]
  · intro h
    have hnc : t.status ≠ .canceled := by simp [h]
    simp [Task.complete, hnc]
  · intro h
    have hnc : t.status ≠ .completed := by simp [h]
    simp [Task.cancel, hnc]

/-- Witness for C10: an already-completed task completes again (status
stays `completed`, one more TaskCompleted event) and an
already-canceled task cancels again, at concrete inputs. -/
theorem terminal_states_absorbing_witness :
    ({ sampleTask with status := .completed } : Task).complete "u2" [] none 11 =
      .ok { sampleTask with
        status := .completed
        updated_at := 11
        pending_events := [.taskCompleted "t-1" "u2" [] none] } ∧
    ({ sampleTask with status := .canceled } : Task).cancel "u3" (some "late") 11 =
      .ok { sampleTask with
        status := .canceled
        updated_at := 11
        pending_events := [.taskCanceled "t-1" "u3" (some "late")] } :=
  ⟨(terminal_states_absorbing { sampleTask with status := .completed }
      "u2" "u3" [] none none 11).2.2.1 rfl,
   (terminal_states_absorbing { sampleTask with status := .canceled }
      "u2" "u3" [] none (some "late") 11).2.2.2 rfl⟩

/-! ### Serialization: `to_dict` / `from_dict` (task.py lines 160–203)

Python `datetime.isoformat()` output at ISO-8601 precision is modelled by
`IsoString`: an ISO string determines its instant (the encoding is
injective, and `datetime.fromisoformat` parses an `isoformat()` output
back to the same instant at that precision). -/

/-- An ISO-8601 timestamp string, identified with the instant it
denotes. -/
structure IsoString where
  instant : Nat
deriving DecidableEq, Repr

/-- `datetime.isoformat()`. -/
def isoformat (d : Nat) : IsoString := ⟨d⟩

/-- `datetime.fromisoformat(s)` on a well-formed ISO string: recovers the
instant. (`from_dict` wraps the call in try/except; on a well-formed
string the except branch is unreachable.) -/
def fromisoformat (s : IsoString) : Option Nat := some s.instant

/-- The dictionary produced by `Task.to_dict` (task.py lines 160–177):
its fixed key set, with enum members lowered to their value strings and
instants lowered to ISO strings. -/
structure TaskDict where
  task_id : String
  title : String
  description : String
  priority : String
  status : String
  created_by : String
  assignee : Option String
  due_date : Option IsoString
  requirements_ids : List String
  parent_task_id : Option String
  tags : List String
  artifact_ids : List String
  created_at : IsoString
  updated_at : IsoString
deriving DecidableEq, Repr

/-- `Task.to_dict` (task.py lines 160–177). -/
def Task.to_dict (t : Task) : TaskDict :=
  { task_id := t.task_id
    title := t.title
    description := t.description
    priority := t.priority.value
    status := t.status.value
    created_by := t.created_by
    assignee := t.assignee
    due_date := t.due_date.map isoformat
    requirements_ids := t.requirements_ids
    parent_task_id := t.parent_task_id
    tags := t.tags
    artifact_ids := t.artifact_ids
    created_at := isoformat t.created_at
    updated_at := isoformat t.updated_at }

/-- `Task.__init__` (task.py lines 19–61), including the Python
truthiness defaulting: `task_id or str(uuid.uuid4())` replaces `None`
*and* the empty string by a fresh uuid (passed here as `fresh_uuid`),
`xs or []` is the identity on lists, `created_at or datetime.utcnow()`
defaults only on `None` (datetimes are always truthy; `now` stands for
`utcnow()`), and the creation event is emitted exactly when `task_id`
was falsy. -/
def Task.init (title description : String) (priority : TaskPriority)
    (created_by : String) (task_id : Option String) (status : TaskStatus)
    (assignee : Option String) (due_date : Option Nat)
    (requirements_ids : Option (List String)) (parent_task_id : Option String)
    (tags : Option (List String)) (artifact_ids : Option (List String))
    (created_at updated_at : Option Nat) (fresh_uuid : String) (now : Nat) :
    Task :=
  let tid :=
    match task_id with
    | some s => if s = "" then fresh_uuid else s
    | none => fresh_uuid
  let reqs := requirements_ids.getD []
  let tgs := tags.getD []
  let arts := artifact_ids.getD []
  let cat := created_at.getD now
  let uat := updated_at.getD cat
  let isNew : Bool :=
    match task_id with
    | some s => s == ""
    | none => true
  { task_id := tid
    title := title
    description := description
    priority := priority
    status := status
    created_by := created_by
    assignee := assignee
    due_date := due_date
    requirements_ids := reqs
    parent_task_id := parent_task_id
    tags := tgs
    artifact_ids := arts
    created_at := cat
    updated_at := uat
    pending_events :=
      if isNew then
        [.taskCreated tid title description priority.value created_by reqs
          parent_task_id tgs due_date]
      else [] }

/-- `Task.from_dict` (task.py lines 179–203): convert the enum value
strings (raising — here `none` — on an unknown value), parse the three
date fields with `None` on parse failure, build the task through
`__init__`, then clear the pending events. -/
def Task.from_dict (d : TaskDict) (fresh_uuid : String) (now : Nat) :
    Option Task :=
  match TaskPriority.fromValue d.priority, TaskStatus.fromValue d.status with
  | some p, some s =>
    let due :=
      match d.due_date with
      | some iso => fromisoformat iso
      | none => none
    let cat := fromisoformat d.created_at
    let uat := fromisoformat d.updated_at
    let task := Task.init d.title d.description p d.created_by
      (some d.task_id) s d.assignee due (some d.requirements_ids)
      d.parent_task_id (some d.tags) (some d.artifact_ids) cat uat
      fresh_uuid now
    some { task with pending_events := [] }
  | _, _ => none

/-- Enum round-trip: the value string of a priority parses back. -/
theorem TaskPriority.fromValue_of_value (p : TaskPriority) :
    TaskPriority.fromValue p.value = some p := by
  cases p <;> rfl

/-- Enum round-trip: the value string of a status parses back. -/
theorem TaskStatus.fromValue_of_status_value (s : TaskStatus) :
    TaskStatus.fromValue s.value = some s := by
  cases s <;> rfl

/-- C8: for every task `t` (whose `task_id` is a real id, i.e. non-empty
— every task the constructor can produce has one, since falsy ids are
replaced by a fresh uuid), `from_dict(to_dict(t))` succeeds and equals
`t` in every observable field: `task_id`, `title`, `description`,
`priority`, `status`, `created_by`, `assignee`, `due_date`,
`requirements_ids`, `parent_task_id`, `tags`, `artifact_ids`,
`created_at` and `updated_at` (instants at ISO-8601 precision); only the
non-observable `pending_events` is reset. -/
theorem from_dict_to_dict_roundtrip (t : Task) (fresh_uuid : String)
    (now : Nat) (h : t.task_id ≠ "") :
    Task.from_dict t.to_dict fresh_uuid now =
      some { t with pending_events := [] } := by
  rcases hd : t.due_date with _ | d <;>
    simp [Task.to_dict, Task.from_dict, TaskPriority.fromValue_of_value,
      TaskStatus.fromValue_of_status_value, Task.init, fromisoformat, isoformat, h, hd]

/-- Witness for C8 at a concrete task. -/
theorem from_dict_to_dict_roundtrip_witness :
    Task.from_dict sampleTask.to_dict "uuid-x" 99 = some sampleTask :=
  from_dict_to_dict_roundtrip sampleTask "uuid-x" 99 (by decide)

/-! ### Retry / dead-letter controller
(`src/infrastructure/message_queue/error_handler.py`)

Python floats (delays, backoff factors) are modelled as rationals; an
exception is modelled by its type name and its `str(...)` rendering, and
the `isinstance` test against the non-retryable classes is flattened to
a name-membership test. -/

/-- A Python exception as `ErrorHandler` observes it. -/
structure PyError where
  name : String
  msg : String
deriving DecidableEq, Repr

/-- The `non_retryable_errors` tuple of `_is_retryable_error`
(error_handler.py lines 254–260), by class name. -/
def nonRetryableErrorNames : List String :=
  ["ValueError", "TypeError", "KeyError", "AttributeError", "JSONDecodeError"]

/-- The `retryable_error_names` indicators (error_handler.py lines
267–273). -/
def retryableErrorIndicators : List String :=
  ["ConnectionError", "Timeout", "ServerError", "CommunicationError",
   "TemporaryFailure"]

/-- Python's `needle in haystack` substring test, on character lists. -/
def containsSub (needle : List Char) : List Char → Bool
  | [] => needle.isEmpty
  | c :: cs => needle.isPrefixOf (c :: cs) || containsSub needle cs

/-- `ErrorHandler._is_retryable_error` (error_handler.py lines 243–281):
non-retryable class names are terminal; names containing a retryable
indicator are retryable; unknown errors default to retryable. -/
def is_retryable_error (e : PyError) : Bool :=
  if nonRetryableErrorNames.contains e.name then false
  else if retryableErrorIndicators.any
      (fun ind => containsSub ind.data e.name.data) then true
  else true

/-- `RetryBackoffStrategy` (error_handler.py lines 91–105). -/
structure RetryBackoffStrategy where
  initial_delay : ℚ
  max_delay : ℚ
  backoff_factor : ℚ
deriving DecidableEq

/-- `RetryBackoffStrategy.get_delay` (error_handler.py lines 107–118):
`min(initial_delay * backoff_factor ** retry_count, max_delay)`. -/
def RetryBackoffStrategy.get_delay (s : RetryBackoffStrategy)
    (retry_count : Nat) : ℚ :=
  min (s.initial_delay * s.backoff_factor ^ retry_count) s.max_delay

/-- A queue message: its `_retry_count` key (0 when absent) and the rest
of the message data, opaque to the controller. -/
structure QueueMessage where
  retry_count : Nat
  body : String
deriving DecidableEq, Repr

/-- A dead-letter record (`DeadLetterQueue.add_message`,
error_handler.py lines 54–72). -/
structure DeadLetterRecord where
  message : QueueMessage
  error_message : String
  original_error : String
  timestamp : Nat
  dlq_timestamp : Nat
deriving DecidableEq, Repr

/-- `ErrorHandler.handle_error` (error_handler.py lines 147–210),
state-passing on the dead-letter list. Returns the new dead-letter list
together with the scheduled redelivery — its delay and the message with
the incremented `_retry_count` — or `none` when no retry is scheduled.
A terminal error dead-letters immediately; a retryable error with
`retry_count >= max_retries` dead-letters; otherwise exactly one retry
is scheduled after `get_delay(retry_count)`. The record's
`original_error` is `str(error)` and its `error_message` is the str of
the wrapping `MessageProcessingError`. -/
def handle_error (max_retries : Nat) (strategy : RetryBackoffStrategy)
    (dlq : List DeadLetterRecord) (msg : QueueMessage) (err : PyError)
    (now : Nat) : List DeadLetterRecord × Option (ℚ × QueueMessage) :=
  let retryable := is_retryable_error err
  let record : DeadLetterRecord :=
    { message := msg
      error_message := "Error processing message: " ++ err.msg
      original_error := err.msg
      timestamp := now
      dlq_timestamp := now }
  if !retryable then
    (dlq ++ [record], none)
  else if max_retries ≤ msg.retry_count then
    (dlq ++ [record], none)
  else
    (dlq, some (strategy.get_delay msg.retry_count,
      { msg with retry_count := msg.retry_count + 1 }))

/-- C4: when the callback's error is retryable and the message's
`retry_count` is below `max_retries`, `handle_error` schedules exactly
one redelivery after `min(initial_delay * backoff_factor ^ retry_count,
max_delay)`, increments the message's `retry_count`, and appends no
dead-letter record; when the error is terminal, or `retry_count >=
max_retries`, it schedules no redelivery and appends exactly one
dead-letter record whose `original_error` field is the string of the
last error. -/
theorem handle_error_retry_or_dead_letter (max_retries : Nat)
    (strategy : RetryBackoffStrategy) (dlq : List DeadLetterRecord)
    (msg : QueueMessage) (err : PyError) (now : Nat) :
    (is_retryable_error err = true → msg.retry_count < max_retries →
      handle_error max_retries strategy dlq msg err now =
        (dlq,
         some (min (strategy.initial_delay *
                strategy.backoff_factor ^ msg.retry_count) strategy.max_delay,
           { msg with retry_count := msg.retry_count + 1 }))) ∧
    (is_retryable_error err = false ∨ max_retries ≤ msg.retry_count →
      handle_error max_retries strategy dlq msg err now =
        (dlq ++ [{ message := msg
                   error_message := "Error processing message: " ++ err.msg
                   original_error := err.msg
                   timestamp := now
                   dlq_timestamp := now }], none)) := by
  constructor
  · intro hr hc
    simp [handle_error, hr, Nat.not_le.mpr hc, RetryBackoffStrategy.get_delay]
  · rintro (hr | hc)
    · simp [handle_error, hr]
    · by_cases hr : is_retryable_error err <;>
        simp [handle_error, hr, hc]

/-- Witness for C4: a connection-category error on a fresh message is
retried after the initial delay; a `ValueError` is dead-lettered; a
retryable error that exhausted its three retries is dead-lettered. -/
theorem handle_error_retry_or_dead_letter_witness :
    handle_error 3 ⟨1, 60, 2⟩ [] ⟨0, "m1"⟩ ⟨"ConnectionError", "conn refused"⟩ 5 =
      ([], some (1, ⟨1, "m1"⟩)) ∧
    handle_error 3 ⟨1, 60, 2⟩ [] ⟨0, "m2"⟩ ⟨"ValueError", "bad payload"⟩ 5 =
      ([⟨⟨0, "m2"⟩, "Error processing message: bad payload", "bad payload",
         5, 5⟩], none) ∧
    handle_error 3 ⟨1, 60, 2⟩ [] ⟨3, "m3"⟩ ⟨"ConnectionError", "conn refused"⟩ 5 =
      ([⟨⟨3, "m3"⟩, "Error processing message: conn refused", "conn refused",
         5, 5⟩], none) := by
  refine ⟨?_, ?_, ?_⟩
  · have h := (handle_error_retry_or_dead_letter 3 ⟨1, 60, 2⟩ []
      ⟨0, "m1"⟩ ⟨"ConnectionError", "conn refused"⟩ 5).1 (by decide) (by decide)
    rw [h]; norm_num
  · exact (handle_error_retry_or_dead_letter 3 ⟨1, 60, 2⟩ []
      ⟨0, "m2"⟩ ⟨"ValueError", "bad payload"⟩ 5).2 (Or.inl (by decide))
  · exact (handle_error_retry_or_dead_letter 3 ⟨1, 60, 2⟩ []
      ⟨3, "m3"⟩ ⟨"ConnectionError", "conn refused"⟩ 5).2 (Or.inr (by decide))

/-! ### Task prioritizer
(`src/product_definition/agents/task_polling_service.py`,
`TaskPollingService.prioritize_tasks`, lines 124–163) -/

/-- The `priority_weights` dictionary (task_polling_service.py lines
138–143). -/
def priorityWeight : TaskPriority → Nat
  | .critical => 100
  | .high => 75
  | .medium => 50
  | .low => 25

/-- The `status_weights` dictionary (task_polling_service.py lines
145–149); `.get(status, 0)` defaults every unlisted status to 0. -/
def statusWeight : TaskStatus → Nat
  | .blocked => 20
  | .review => 10
  | _ => 0

/-- `score = priority_score + status_score` (task_polling_service.py
lines 154–156). -/
def taskScore (t : Task) : Nat :=
  priorityWeight t.priority + statusWeight t.status

/-- The order `prioritize_tasks` sorts by: `a` may precede `b` when `a`'s
score is at least `b`'s (`sort(key=score, reverse=True)`). -/
def scoreGE (a b : Task) : Prop :=
  taskScore b ≤ taskScore a

instance : DecidableRel scoreGE :=
  fun a b => Nat.decLe (taskScore b) (taskScore a)

instance : IsTotal Task scoreGE :=
  ⟨fun a b => (Nat.le_total (taskScore a) (taskScore b)).symm⟩

instance : IsTrans Task scoreGE :=
  ⟨fun _ _ _ hab hbc => Nat.le_trans hbc hab⟩

/-- `TaskPollingService.prioritize_tasks` (task_polling_service.py lines
124–163): empty input short-circuits to `[]`; otherwise the task/score
pairs are sorted by score descending with Python's stable `list.sort`
(`key=lambda x: x[1], reverse=True`) and the tasks are read back out.
`insertionSort scoreGE` is the stable sort by descending score, which is
extensionally the same list. -/
def prioritize_tasks (tasks : List Task) : List Task :=
  if tasks.isEmpty then [] else List.insertionSort scoreGE tasks

/-- Two equal-score tasks distinguished only by `created_at`: the later-
created one listed first. -/
def tLate : Task :=
  { sampleTask with
    task_id := "late"
    status := .assigned
    created_at := 10
    updated_at := 10 }

/-- The earlier-created of the two equal-score tasks. -/
def tEarly : Task :=
  { sampleTask with
    task_id := "early"
    status := .assigned
    created_at := 5
    updated_at := 5 }

/-- C6 counterexample: the claim that equal-score tasks are ordered by
`created_at` ascending is false: on the concrete input
`[tLate, tEarly]` — two tasks of equal score with `tLate` created later
— `prioritize_tasks` returns them unchanged, so the equal-score pair
comes out in descending `created_at` order. -/
theorem prioritize_claim_counterexample :
    prioritize_tasks [tLate, tEarly] = [tLate, tEarly] ∧
    taskScore tLate = taskScore tEarly ∧
    tEarly.created_at < tLate.created_at := by
  refine ⟨by decide, rfl, by decide⟩

/-- Each score class of `orderedInsert scoreGE x l` in order: `x` is
inserted before every element of its own score class and the other
classes are untouched. -/
theorem filter_orderedInsert_score (x : Task) (l : List Task) (s : Nat) :
    (List.orderedInsert scoreGE x l).filter (fun t => taskScore t == s) =
      if taskScore x == s
      then x :: l.filter (fun t => taskScore t == s)
      else l.filter (fun t => taskScore t == s) := by
  induction l with
  | nil => by_cases h : taskScore x == s <;> simp [h]
  | cons y ys ih =>
    by_cases hxy : scoreGE x y
    · simp only [List.orderedInsert, if_pos hxy]
      by_cases hx : taskScore x == s <;> simp [List.filter_cons, hx]
    · simp only [List.orderedInsert, if_neg hxy]
      by_cases hx : taskScore x == s
      · have hxs : taskScore x = s := by simpa using hx
        have hy : ¬ ((taskScore y == s) = true) := by
          simp only [beq_iff_eq]
          intro hys
          exact hxy (Nat.le_of_eq (hys.trans hxs.symm))
        simp [List.filter_cons, hx, hy, ih]
      · simp [List.filter_cons, hx, ih]

/-- Each score class survives `insertionSort scoreGE` in input order
(stability). -/
theorem filter_insertionSort_score (l : List Task) (s : Nat) :
    (List.insertionSort scoreGE l).filter (fun t => taskScore t == s) =
      l.filter (fun t => taskScore t == s) := by
  induction l with
  | nil => rfl
  | cons x xs ih =>
    simp only [List.insertionSort]
    rw [filter_orderedInsert_score, ih, List.filter_cons]

/-- C6 (amended): `prioritize_tasks` returns the same tasks sorted in
descending order of `priority_score + status_score` (CRITICAL=100,
HIGH=75, MEDIUM=50, LOW=25; BLOCKED=20, REVIEW=10, ASSIGNED=0), and any
two tasks with equal total score keep their relative input order —
Python's sort is stable and its key consults only the score, not
`created_at`. Stability is expressed by the score classes: for every
score `s`, the subsequence of tasks of score `s` is returned exactly as
it appeared in the input. -/
theorem prioritize_tasks_stable_desc (tasks : List Task) :
    (prioritize_tasks tasks).Perm tasks ∧
    (prioritize_tasks tasks).Sorted scoreGE ∧
    ∀ s, (prioritize_tasks tasks).filter (fun t => taskScore t == s) =
      tasks.filter (fun t => taskScore t == s) := by
  by_cases h : tasks.isEmpty
  · have he : tasks = [] := by
      cases tasks with
      | nil => rfl
      | cons a l => simp at h
    subst he
    exact ⟨List.Perm.refl _, by simp [prioritize_tasks], by
      intro s; simp [prioritize_tasks]⟩
  · refine ⟨?_, ?_, ?_⟩
    · simpa [prioritize_tasks, h] using List.perm_insertionSort scoreGE tasks
    · simpa [prioritize_tasks, h] using List.sorted_insertionSort scoreGE tasks
    · intro s
      simpa [prioritize_tasks, h] using filter_insertionSort_score tasks s

/-! ### Event logger in-memory store
(`src/infrastructure/message_queue/event_monitor.py`,
`EventLogger._store_entry`, lines 179–201)

`log_event` and `log_command` both build an `EventLogEntry` and call
`_store_entry`; the entry's contents are irrelevant to the bound, so the
entry type is a parameter. -/

/-- Python's `xs[-n:]` slice: the last `n` elements for `n ≥ 1`, but the
*whole* list for `n = 0` (since `xs[-0:]` is `xs[0:]`). -/
def pythonLastSlice {α : Type} (n : Nat) (xs : List α) : List α :=
  if n = 0 then xs else xs.drop (xs.length - n)

/-- `EventLogger._store_entry` (event_monitor.py lines 186–192): append
the entry to `log_entries`, then when the length exceeds
`max_memory_entries` keep `log_entries[-max_memory_entries:]`. -/
def store_entry {α : Type} (maxEntries : Nat) (log_entries : List α)
    (e : α) : List α :=
  if maxEntries < (log_entries ++ [e]).length then
    pythonLastSlice maxEntries (log_entries ++ [e])
  else log_entries ++ [e]

/-- The last `n` logged entries, in logging order. -/
def lastEntries {α : Type} (n : Nat) (xs : List α) : List α :=
  xs.drop (xs.length - n)

/-- One `_store_entry` step keeps the state equal to the last
`maxEntries` of everything logged so far (for a positive bound). -/
theorem store_entry_lastEntries {α : Type} (m : Nat) (hm : 1 ≤ m)
    (p : List α) (e : α) :
    store_entry m (lastEntries m p) e = lastEntries m (p ++ [e]) := by
  have hm0 : m ≠ 0 := Nat.one_le_iff_ne_zero.mp hm
  by_cases hk : p.length < m
  · have h1 : p.length - m = 0 := Nat.sub_eq_zero_of_le (Nat.le_of_lt hk)
    have h2 : (p ++ [e]).length - m = 0 := by
      simp only [List.length_append, List.length_singleton]
      omega
    have hlen : ¬ m < (p ++ [e]).length := by
      simp only [List.length_append, List.length_singleton]
      omega
    simp only [lastEntries, store_entry, h1, List.drop_zero, if_neg hlen, h2]
  · push_neg at hk
    have hdlen : (p.drop (p.length - m)).length = m := by
      simp only [List.length_drop]
      omega
    have hlen : m < (p.drop (p.length - m) ++ [e]).length := by
      simp only [List.length_append, hdlen, List.length_singleton]
      omega
    have hslice : (p.drop (p.length - m) ++ [e]).length - m = 1 := by
      simp only [List.length_append, hdlen, List.length_singleton]
      omega
    simp only [lastEntries, store_entry, pythonLastSlice]
    rw [if_pos hlen, if_neg hm0, hslice,
      List.drop_append_of_le_length (by rw [hdlen]; exact hm),
      List.drop_drop,
      List.drop_append_of_le_length
        (by simp only [List.length_append, List.length_singleton]; omega)]
    have harith : p.length - m + 1 = (p ++ [e]).length - m := by
      simp only [List.length_append, List.length_singleton]
      omega
    rw [harith]

/-- C9: after each `log_event`/`log_command` call (each `_store_entry`),
the in-memory store holds at most `max_memory_entries` entries, and the
retained entries are exactly the most recently logged ones in logging
order — for every positive `max_memory_entries` (the spec's default is
1000; a zero bound is degenerate, as Python's `[-0:]` slice would not
trim at all). -/
theorem event_logger_bounded {α : Type} (maxEntries : Nat)
    (hm : 1 ≤ maxEntries) (es : List α) :
    (es.foldl (store_entry maxEntries) []).length ≤ maxEntries ∧
    es.foldl (store_entry maxEntries) [] =
      es.drop (es.length - maxEntries) := by
  have key : ∀ l : List α, l.foldl (store_entry maxEntries) [] =
      lastEntries maxEntries l := by
    intro l
    induction l using List.reverseRecOn with
    | nil => simp [lastEntries]
    | append_singleton p e ih =>
      rw [List.foldl_append, List.foldl_cons, List.foldl_nil, ih,
        store_entry_lastEntries maxEntries hm]
  refine ⟨?_, key es⟩
  rw [key es]
  simp only [lastEntries, List.length_drop]
  omega

/-- Witness for C9 with bound 2 and three logged entries: only the last
two are retained, in order. -/
theorem event_logger_bounded_witness :
    (([10, 20, 30] : List Nat).foldl (store_entry 2) []).length ≤ 2 ∧
    ([10, 20, 30] : List Nat).foldl (store_entry 2) [] = [20, 30] :=
  event_logger_bounded 2 (by decide) [10, 20, 30]

/-! ### Scanning orchestrator
(`src/orchestration/application/task_scanning_service.py`)

A scan tick is modelled as the ordered list of messages `_perform_scan`
publishes to the bus. The query responses (the source's
`_simulate_task_query_response`, standing in for the not-yet-wired real
query path) are a parameter: a function from the queried status value to
the returned task rows. -/

/-- A task row as the scan passes consume it: the dictionary keys the
code reads. -/
structure TaskRow where
  task_id : String
  title : String
  user_id : String
  notification_sent : Bool
  validation_notification_sent : Bool
deriving DecidableEq, Repr

/-- A published message, restricted to the envelope/payload fields the
scan passes fill in: the type tag, the payload fields, and the
envelope's `correlation_id`. -/
inductive ScanMsg where
  | taskScanInitiated (scan_id : String) (correlation_id : Option String)
  | taskScanCompleted (scan_id : String) (correlation_id : Option String)
  | queryTasks (status : String) (correlation_id : Option String)
  | updateTaskStatus (task_id new_status comment : String)
      (correlation_id : Option String)
  | assignTask (task_id agent_id assignment_reason : String)
      (correlation_id : Option String)
  | sendNotification (user_id task_id notification_type : String)
      (correlation_id : Option String)
deriving DecidableEq, Repr

/-- `TaskScanningService._scan_new_tasks` (task_scanning_service.py lines
134–195): a QueryTasks{status=new} command, then per returned task an
UpdateTaskStatus command to `request_validation` and an AssignTask
command to `product_manager_pool`, every command correlated with the
scan id. -/
def scan_new_tasks (query : String → List TaskRow) (scan_id : String) :
    List ScanMsg :=
  .queryTasks "new" (some scan_id) ::
    (query "new").flatMap (fun task =>
      [.updateTaskStatus task.task_id "request_validation"
         "Task status updated by Task Scanner" (some scan_id),
       .assignTask task.task_id "product_manager_pool"
         "Initial requirements analysis" (some scan_id)])

/-- `TaskScanningService._scan_clarification_needed_tasks`
(task_scanning_service.py lines 197–246): a QueryTasks command, then a
SendNotification per task whose notification flag is unset. -/
def scan_clarification_needed_tasks (query : String → List TaskRow)
    (scan_id : String) : List ScanMsg :=
  .queryTasks "clarification_needed" (some scan_id) ::
    (query "clarification_needed").flatMap (fun task =>
      if task.notification_sent then []
      else [.sendNotification task.user_id task.task_id
        "CLARIFICATION_REQUESTED" (some scan_id)])

/-- `TaskScanningService._scan_prd_validation_tasks`
(task_scanning_service.py lines 248–298). -/
def scan_prd_validation_tasks (query : String → List TaskRow)
    (scan_id : String) : List ScanMsg :=
  .queryTasks "prd_validation" (some scan_id) ::
    (query "prd_validation").flatMap (fun task =>
      if task.validation_notification_sent then []
      else [.sendNotification task.user_id task.task_id
        "PRD_VALIDATION_REQUESTED" (some scan_id)])

/-- `TaskScanningService._perform_scan` (task_scanning_service.py lines
95–132): TaskScanInitiated (fresh `scan_id` in the payload, no
correlation id on the event itself), the three passes, then
TaskScanCompleted correlated with the scan id. -/
def perform_scan (query : String → List TaskRow) (scan_id : String) :
    List ScanMsg :=
  .taskScanInitiated scan_id none ::
    (scan_new_tasks query scan_id
      ++ scan_clarification_needed_tasks query scan_id
      ++ scan_prd_validation_tasks query scan_id
      ++ [.taskScanCompleted scan_id (some scan_id)])

/-- Tag test: TaskScanInitiated events. -/
def ScanMsg.isScanInitiated : ScanMsg → Bool
  | .taskScanInitiated _ _ => true
  | _ => false

/-- Tag test: TaskScanCompleted events. -/
def ScanMsg.isScanCompleted : ScanMsg → Bool
  | .taskScanCompleted _ _ => true
  | _ => false

/-- Tag test: UpdateTaskStatus commands. -/
def ScanMsg.isUpdateTaskStatus : ScanMsg → Bool
  | .updateTaskStatus _ _ _ _ => true
  | _ => false

/-- Tag test: AssignTask commands. -/
def ScanMsg.isAssignTask : ScanMsg → Bool
  | .assignTask _ _ _ _ => true
  | _ => false

/-- A flat-mapped segment none of whose messages satisfies `p`
contributes nothing to `filter p`. -/
theorem filter_flatMap_eq_nil {β : Type} (f : β → List ScanMsg)
    (p : ScanMsg → Bool) (h : ∀ b, (f b).filter p = []) (l : List β) :
    (l.flatMap f).filter p = [] := by
  induction l with
  | nil => rfl
  | cons x xs ih => simp [List.flatMap_cons, List.filter_append, h, ih]

/-- No message of the new-task pass satisfies a predicate that is false
on QueryTasks, UpdateTaskStatus and AssignTask messages. -/
theorem scan_new_tasks_filter_none (query : String → List TaskRow)
    (scan_id : String) (p : ScanMsg → Bool)
    (hq : ∀ st c, p (.queryTasks st c) = false)
    (hu : ∀ a b c d, p (.updateTaskStatus a b c d) = false)
    (ha : ∀ a b c d, p (.assignTask a b c d) = false) :
    (scan_new_tasks query scan_id).filter p = [] := by
  simp only [scan_new_tasks, List.filter_cons, hq, Bool.false_eq_true,
    if_false]
  exact filter_flatMap_eq_nil _ p
    (fun t => by simp [List.filter_cons, hu, ha]) _

/-- No message of the clarification pass satisfies a predicate that is
false on QueryTasks and SendNotification messages. -/
theorem scan_clar_filter_none (query : String → List TaskRow)
    (scan_id : String) (p : ScanMsg → Bool)
    (hq : ∀ st c, p (.queryTasks st c) = false)
    (hn : ∀ u t ty c, p (.sendNotification u t ty c) = false) :
    (scan_clarification_needed_tasks query scan_id).filter p = [] := by
  simp only [scan_clarification_needed_tasks, List.filter_cons, hq,
    Bool.false_eq_true, if_false]
  exact filter_flatMap_eq_nil _ p
    (fun t => by cases h : t.notification_sent <;>
      simp [List.filter_cons, hn]) _

/-- No message of the PRD-validation pass satisfies a predicate that is
false on QueryTasks and SendNotification messages. -/
theorem scan_prd_filter_none (query : String → List TaskRow)
    (scan_id : String) (p : ScanMsg → Bool)
    (hq : ∀ st c, p (.queryTasks st c) = false)
    (hn : ∀ u t ty c, p (.sendNotification u t ty c) = false) :
    (scan_prd_validation_tasks query scan_id).filter p = [] := by
  simp only [scan_prd_validation_tasks, List.filter_cons, hq,
    Bool.false_eq_true, if_false]
  exact filter_flatMap_eq_nil _ p
    (fun t => by cases h : t.validation_notification_sent <;>
      simp [List.filter_cons, hn]) _

/-- The UpdateTaskStatus messages of the new-task pass's per-task
segment, in order: one per task. -/
theorem newPass_filter_update (tasks : List TaskRow) (scan_id : String) :
    (tasks.flatMap (fun task =>
        ([.updateTaskStatus task.task_id "request_validation"
            "Task status updated by Task Scanner" (some scan_id),
          .assignTask task.task_id "product_manager_pool"
            "Initial requirements analysis" (some scan_id)] :
          List ScanMsg))).filter ScanMsg.isUpdateTaskStatus =
      tasks.map (fun task => .updateTaskStatus task.task_id
        "request_validation" "Task status updated by Task Scanner"
        (some scan_id)) := by
  induction tasks with
  | nil => rfl
  | cons t ts ih =>
    simp only [List.flatMap_cons, List.filter_append, List.map_cons, ih,
      List.filter_cons]
    rfl

/-- The AssignTask messages of the new-task pass's per-task segment, in
order: one per task. -/
theorem newPass_filter_assign (tasks : List TaskRow) (scan_id : String) :
    (tasks.flatMap (fun task =>
        ([.updateTaskStatus task.task_id "request_validation"
            "Task status updated by Task Scanner" (some scan_id),
          .assignTask task.task_id "product_manager_pool"
            "Initial requirements analysis" (some scan_id)] :
          List ScanMsg))).filter ScanMsg.isAssignTask =
      tasks.map (fun task => .assignTask task.task_id
        "product_manager_pool" "Initial requirements analysis"
        (some scan_id)) := by
  induction tasks with
  | nil => rfl
  | cons t ts ih =>
    simp only [List.flatMap_cons, List.filter_append, List.map_cons, ih,
      List.filter_cons]
    rfl

/-- C5: on every scan tick whose query for status `new` yields `n`
tasks, the orchestrator publishes exactly one TaskScanInitiated event
first; among all published messages the UpdateTaskStatus commands are
exactly one per queried task, in task order, each with
`new_status=request_validation` and the tick's `scan_id` as
`correlation_id`; likewise the AssignTask commands, one per task with
`agent_id=product_manager_pool` and the same correlation; and exactly
one TaskScanCompleted event, published last, correlated with the same
`scan_id`. -/
theorem perform_scan_messages (query : String → List TaskRow)
    (scan_id : String) :
    (perform_scan query scan_id).head? =
      some (.taskScanInitiated scan_id none) ∧
    (perform_scan query scan_id).filter ScanMsg.isScanInitiated =
      [.taskScanInitiated scan_id none] ∧
    (perform_scan query scan_id).filter ScanMsg.isUpdateTaskStatus =
      (query "new").map (fun task => .updateTaskStatus task.task_id
        "request_validation" "Task status updated by Task Scanner"
        (some scan_id)) ∧
    (perform_scan query scan_id).filter ScanMsg.isAssignTask =
      (query "new").map (fun task => .assignTask task.task_id
        "product_manager_pool" "Initial requirements analysis"
        (some scan_id)) ∧
    (perform_scan query scan_id).filter ScanMsg.isScanCompleted =
      [.taskScanCompleted scan_id (some scan_id)] ∧
    (perform_scan query scan_id).getLast? =
      some (.taskScanCompleted scan_id (some scan_id)) := by
  refine ⟨rfl, ?_, ?_, ?_, ?_, ?_⟩
  · have h1 := scan_new_tasks_filter_none query scan_id
      ScanMsg.isScanInitiated (fun _ _ => rfl) (fun _ _ _ _ => rfl)
      (fun _ _ _ _ => rfl)
    have h2 := scan_clar_filter_none query scan_id
      ScanMsg.isScanInitiated (fun _ _ => rfl) (fun _ _ _ _ => rfl)
    have h3 := scan_prd_filter_none query scan_id
      ScanMsg.isScanInitiated (fun _ _ => rfl) (fun _ _ _ _ => rfl)
    simp [perform_scan, List.filter_append, List.filter_cons, h1, h2, h3,
      ScanMsg.isScanInitiated]
  · have h1 := newPass_filter_update (query "new") scan_id
    have h2 := scan_clar_filter_none query scan_id
      ScanMsg.isUpdateTaskStatus (fun _ _ => rfl) (fun _ _ _ _ => rfl)
    have h3 := scan_prd_filter_none query scan_id
      ScanMsg.isUpdateTaskStatus (fun _ _ => rfl) (fun _ _ _ _ => rfl)
    simp [perform_scan, scan_new_tasks, List.filter_append,
      List.filter_cons, h1, h2, h3, ScanMsg.isUpdateTaskStatus]
  · have h1 := newPass_filter_assign (query "new") scan_id
    have h2 := scan_clar_filter_none query scan_id
      ScanMsg.isAssignTask (fun _ _ => rfl) (fun _ _ _ _ => rfl)
    have h3 := scan_prd_filter_none query scan_id
      ScanMsg.isAssignTask (fun _ _ => rfl) (fun _ _ _ _ => rfl)
    simp [perform_scan, scan_new_tasks, List.filter_append,
      List.filter_cons, h1, h2, h3, ScanMsg.isAssignTask]
  · have h1 := scan_new_tasks_filter_none query scan_id
      ScanMsg.isScanCompleted (fun _ _ => rfl) (fun _ _ _ _ => rfl)
      (fun _ _ _ _ => rfl)
    have h2 := scan_clar_filter_none query scan_id
      ScanMsg.isScanCompleted (fun _ _ => rfl) (fun _ _ _ _ => rfl)
    have h3 := scan_prd_filter_none query scan_id
      ScanMsg.isScanCompleted (fun _ _ => rfl) (fun _ _ _ _ => rfl)
    simp [perform_scan, List.filter_append, List.filter_cons, h1, h2, h3,
      ScanMsg.isScanCompleted]
  · simp only [perform_scan]
    rw [← List.cons_append, List.getLast?_concat]

/-! ### Polling worker loops

Two implementations exist. The application-layer one
(`src/product_definition/application/task_polling_service.py`) guards
its poll with `currently_processing_task` under `processing_lock`
(lines 95–108) and clears the slot in the processing thread's `finally`
block (lines 202–205). The agents-layer one
(`src/product_definition/agents/task_polling_service.py`) spawns an
`asyncio` task per poll tick (`_polling_loop`, lines 222–248) and
tracks every in-flight `_process_task` in its `_processing_tasks`
dictionary, with no in-flight check before taking the next task.

Each loop is modelled as an interleaving transition system: a poll tick
(with the environment's choice of query response) and the completion of
a processing thread/task are the atomic steps; the in-flight list holds
the task ids whose `process` invocation has started but not finished. -/

/-- State of the application-layer `TaskPollingService`:
`currently_processing_task` plus the set (as a list) of running
`_process_task_thread` invocations. -/
structure PollerState where
  currently_processing_task : Option String
  inFlight : List String
deriving DecidableEq, Repr

/-- An atomic step of the application-layer loop and its environment. -/
inductive PollerAction where
  | pollTick (polled : Option String)
  | finishProcessing
deriving DecidableEq, Repr

/-- The application-layer transition function. `pollTick`: one
`_polling_loop` iteration (lines 95–108) — under `processing_lock`,
`_poll_for_tasks` runs only when `currently_processing_task is None`;
when the (environment-chosen) query yields a highest-priority task,
`_process_task_async` (lines 146–162) sets `currently_processing_task`
and starts the processing thread. `finishProcessing`: the processing
thread's `finally` block (lines 202–205) clears the slot. -/
def pollStep (s : PollerState) (a : PollerAction) : PollerState :=
  match a with
  | .pollTick polled =>
    match s.currently_processing_task with
    | some _ => s
    | none =>
      match polled with
      | none => s
      | some tid =>
        { currently_processing_task := some tid
          inFlight := s.inFlight ++ [tid] }
  | .finishProcessing =>
    match s.inFlight with
    | [] => s
    | _ :: rest =>
      { currently_processing_task := none, inFlight := rest }

/-- The state at service construction: no slot taken, nothing in
flight. -/
def PollerState.init : PollerState :=
  { currently_processing_task := none, inFlight := [] }

/-- The single-flight invariant of the application-layer loop. -/
def PollerInv (s : PollerState) : Prop :=
  s.inFlight.length ≤ 1 ∧
    (s.currently_processing_task = none → s.inFlight = [])

/-- Every step of the application-layer loop preserves the single-flight
invariant. -/
theorem pollStep_preserves_inv (s : PollerState) (a : PollerAction)
    (h : PollerInv s) : PollerInv (pollStep s a) := by
  obtain ⟨hlen, hidle⟩ := h
  cases a with
  | pollTick polled =>
    rcases hc : s.currently_processing_task with _ | tid0
    · rcases polled with _ | tid
      · simpa [pollStep, hc] using ⟨hlen, hidle⟩
      · have hnil : s.inFlight = [] := hidle hc
        simp [pollStep, hc, PollerInv, hnil]
    · simpa [pollStep, hc] using ⟨hlen, hidle⟩
  | finishProcessing =>
    rcases hf : s.inFlight with _ | ⟨t, rest⟩
    · simpa [pollStep, hf] using ⟨hlen, hidle⟩
    · have : rest = [] := by
        rw [hf] at hlen
        simpa using hlen
      simp [pollStep, hf, PollerInv, this]

/-- C7 (amended, application-layer half): along every action sequence of
the application-layer polling loop, at most one `process` invocation is
in flight, and a poll tick taken while a task is processing leaves the
state untouched (no new task is taken). -/
theorem polling_loop_single_flight (actions : List PollerAction) :
    ((actions.foldl pollStep PollerState.init).inFlight.length ≤ 1) ∧
    (∀ s tid polled, s.currently_processing_task = some tid →
      pollStep s (.pollTick polled) = s) := by
  constructor
  · have key : ∀ (l : List PollerAction) (s : PollerState), PollerInv s →
        PollerInv (l.foldl pollStep s) := by
      intro l
      induction l with
      | nil => intro s hs; exact hs
      | cons a as ih =>
        intro s hs
        exact ih (pollStep s a) (pollStep_preserves_inv s a hs)
    exact (key actions PollerState.init ⟨by simp [PollerState.init],
      fun _ => rfl⟩).1
  · intro s tid polled hc
    simp [pollStep, hc]

/-- Witness for C7's amended theorem: a concrete trace (poll, poll,
finish, poll) keeps at most one task in flight, and a concrete busy
state ignores a poll tick. -/
theorem polling_loop_single_flight_witness :
    (([.pollTick (some "t-1"), .pollTick (some "t-2"), .finishProcessing,
        .pollTick (some "t-3")] : List PollerAction).foldl pollStep
      PollerState.init).inFlight.length ≤ 1 ∧
    pollStep ⟨some "t-1", ["t-1"]⟩ (.pollTick (some "t-2")) =
      ⟨some "t-1", ["t-1"]⟩ :=
  ⟨(polling_loop_single_flight [.pollTick (some "t-1"),
      .pollTick (some "t-2"), .finishProcessing,
      .pollTick (some "t-3")]).1,
   (polling_loop_single_flight []).2 ⟨some "t-1", ["t-1"]⟩ "t-1"
      (some "t-2") rfl⟩

/-- State of the agents-layer `TaskPollingService`: the task service's
tasks for this assignee with their statuses, plus the keys of the
`_processing_tasks` dictionary (one per in-flight `_process_task`). -/
structure AgentPollerState where
  taskStatuses : List (String × TaskStatus)
  processing_tasks : List String
deriving DecidableEq, Repr

/-- An atomic step of the agents-layer loop and its environment. -/
inductive AgentAction where
  | pollTick
  | finish (tid : String)
deriving DecidableEq, Repr

/-- The statuses `poll_tasks` accepts (task_polling_service.py lines
110–114). -/
def processableStatuses : List TaskStatus :=
  [.assigned, .review, .blocked]

/-- The agents-layer transition function. `pollTick`: one
`_polling_loop` iteration (lines 222–248) — `get_next_task` polls the
processable tasks and picks the highest-priority one (for equal-score
tasks, the first, by stability of the prioritizer);
`mark_task_as_in_progress` moves it to `in_progress` through the task
service, and `asyncio.create_task(self._process_task(...))` registers it
in `_processing_tasks` — with no check that `_processing_tasks` is
empty. `finish tid`: `_process_task` completes and
`mark_task_as_completed` (lines 203–220) removes the id. -/
def agentStep (s : AgentPollerState) (a : AgentAction) : AgentPollerState :=
  match a with
  | .pollTick =>
    match s.taskStatuses.find? (fun p => processableStatuses.contains p.2) with
    | none => s
    | some (tid, _) =>
      { taskStatuses := s.taskStatuses.map
          (fun p => if p.1 = tid then (p.1, TaskStatus.in_progress) else p)
        processing_tasks := s.processing_tasks ++ [tid] }
  | .finish tid =>
    { s with processing_tasks :=
        s.processing_tasks.filter (fun x => x ≠ tid) }

/-- Two tasks assigned to the agent's pool, nothing in flight. -/
def agentsInit : AgentPollerState :=
  { taskStatuses := [("task-a", .assigned), ("task-b", .assigned)]
    processing_tasks := [] }

/-- C7 counterexample: the agents-layer polling loop is not
single-flight. From a state with two assigned tasks, two consecutive
poll ticks with no completion in between — e.g. the first
`agent.process_task` still awaiting when the next poll interval elapses
— leave both `process` invocations in flight: `_processing_tasks` holds
both task ids, so a new task was taken while another was still being
processed, contradicting the claim. -/
theorem polling_single_flight_counterexample :
    (([.pollTick, .pollTick] : List AgentAction).foldl agentStep
        agentsInit).processing_tasks = ["task-a", "task-b"] ∧
    2 ≤ (([.pollTick, .pollTick] : List AgentAction).foldl agentStep
        agentsInit).processing_tasks.length := by
  refine ⟨by decide, by decide⟩

end AIHive
